import Mathlib

/-!
Shallow embedding of `custom_components/deepstack_face/image_processing.py`
(HASS-Deepstack-face): a Home Assistant image-processing platform that
forwards camera frames to a Deepstack face service and republishes results.

Pure helpers (`get_valid_filename`, `parse_faces`) are translated directly;
the stateful entity (`process_image`, `save_image`, `teach`) is modelled as
explicit state passing with an effect trace, with the external pieces
(the Deepstack HTTP client outcome, PIL image decoding, the allowed-path
policy, the wall clock) supplied as parameters since they live outside this
repository.
-/

namespace DeepstackFace

/-! ## String helpers: Python `str.strip`, `str.replace`, `re.sub` charset -/

/-- ASCII whitespace stripped by Python `str.strip()`:
space, tab, newline, carriage return, vertical tab, form feed. -/
def isPyWhitespace (c : Char) : Bool :=
  c = ' ' || c = '\t' || c = '\n' || c = '\x0d' || c = '\x0b' || c = '\x0c'

/-- Python `s.strip()`: drop leading and trailing whitespace. -/
def pyStrip (s : String) : String :=
  String.mk (((s.data.dropWhile isPyWhitespace).reverse.dropWhile isPyWhitespace).reverse)

/-- A regex `\w` word character (ASCII fragment): letter, digit, or underscore. -/
def isWordChar (c : Char) : Bool :=
  c.isAlphanum || c = '_'

/-- A character kept by `re.sub(r"(?u)[^-\w.]", "", _)`:
word character, hyphen, or dot. -/
def keptChar (c : Char) : Bool :=
  isWordChar c || c = '-' || c = '.'

/-- `get_valid_filename(name)`:
`re.sub(r"(?u)[^-\w.]", "", str(name).strip().replace(" ", "_"))` —
strip surrounding whitespace, replace each space with an underscore,
then delete every character that is not a word character, hyphen, or dot. -/
def get_valid_filename (name : String) : String :=
  String.mk ((((pyStrip name).data.map (fun c => if c = ' ' then '_' else c)).filter keptChar))

/-- The sanitizer as the spec words it (no leading/trailing strip):
replace spaces with underscores, then remove every character that is not a
word character, hyphen, or dot. Kept separate from `get_valid_filename` to
compare the two. -/
def sanitize_per_spec (name : String) : String :=
  String.mk ((name.data.map (fun c => if c = ' ' then '_' else c)).filter keptChar)

/-- Python `str.lower()` (ASCII fragment). -/
def pyLower (s : String) : String :=
  String.mk (s.data.map Char.toLower)

/-! ## Exact rational arithmetic for `round(100.0 * confidence, 2)`

Confidences are modelled as exact rationals. The arithmetic is written over
`Rat.divInt` and integer operations on `num`/`den` so every definition
evaluates inside the kernel; `ratScale_eq_mul` connects the scaling helper
to ordinary multiplication on `ℚ`. -/

/-- Multiply a rational by an integer: `k * x` computed on the raw fraction. -/
def ratScale (k : ℤ) (x : ℚ) : ℚ := Rat.divInt (k * x.num) x.den

/-- Round a rational to the nearest integer, ties to even — the rounding
Python's builtin `round` applies to the exact value of a float. -/
def roundHalfEven (x : ℚ) : ℤ :=
  let f := x.floor
  let rnum := x.num - f * (x.den : ℤ)
  if 2 * rnum < (x.den : ℤ) then f
  else if 2 * rnum > (x.den : ℤ) then f + 1
  else if f % 2 = 0 then f else f + 1

/-- Python `round(x, 2)`: round to two decimal places, ties to even. -/
def pyRound2 (x : ℚ) : ℚ :=
  Rat.divInt (roundHalfEven (ratScale 100 x)) 100

/-! ## `parse_faces` -/

/-- One raw prediction record from the Deepstack response: a dict that may
carry a `userid` key, and carries a `confidence` in [0,1] (modelled as an
exact rational). -/
structure Prediction where
  userid : Option String
  confidence : ℚ
deriving DecidableEq, Repr

/-- One entry of the list built by `parse_faces`:
`{"name": ..., ATTR_CONFIDENCE: ...}`. -/
structure Face where
  name : String
  confidence : ℚ
deriving DecidableEq, Repr

/-- The record `parse_faces` builds for a retained entry `p`
(`p.userid` is `some uid`): name is the userid, confidence is
`round(100.0 * p["confidence"], 2)`. -/
def mkFace (p : Prediction) : Face :=
  { name := p.userid.getD "", confidence := pyRound2 (ratScale 100 p.confidence) }

/-- `parse_faces(predictions)`: iterate over the records; `break` on the
first record without a `"userid"` key (detect-only shape), `continue` past
records whose userid is exactly `"unknown"`, append a name/confidence
record for the rest. The recursion mirrors the loop: a `break` discards
only the unprocessed tail, so earlier appends survive. -/
def parse_faces : List Prediction → List Face
  | [] => []
  | p :: rest =>
    match p.userid with
    | none => []
    | some uid =>
      if uid = "unknown" then parse_faces rest
      else mkFace p :: parse_faces rest

/-! ## Timestamps: `DATETIME_FORMAT = "%Y-%m-%d_%H-%M-%S"` -/

/-- A broken-down local time, as `homeassistant.util.dt.now()` returns. -/
structure DateTime where
  year : ℕ
  month : ℕ
  day : ℕ
  hour : ℕ
  minute : ℕ
  second : ℕ
deriving DecidableEq, Repr

/-- `strftime` zero-padding to width 2 (`%m %d %H %M %S`): the tens and
units decimal digits. A value ≥ 100 (impossible for a real `tm` field)
prints unpadded. -/
def pad2 (n : ℕ) : String :=
  if n < 100 then String.mk [Nat.digitChar (n / 10 % 10), Nat.digitChar (n % 10)]
  else toString n

/-- `strftime` zero-padding to width 4 (`%Y`): the four decimal digits.
A value ≥ 10000 prints unpadded. -/
def pad4 (n : ℕ) : String :=
  if n < 10000 then
    String.mk [Nat.digitChar (n / 1000 % 10), Nat.digitChar (n / 100 % 10),
      Nat.digitChar (n / 10 % 10), Nat.digitChar (n % 10)]
  else toString n

/-- `t.strftime("%Y-%m-%d_%H-%M-%S")`, the `DATETIME_FORMAT` of the module. -/
def strftimeFmt (t : DateTime) : String :=
  pad4 t.year ++ "-" ++ pad2 t.month ++ "-" ++ pad2 t.day ++ "_" ++
    pad2 t.hour ++ "-" ++ pad2 t.minute ++ "-" ++ pad2 t.second

/-- Checks that a string has the shape `YYYY-MM-DD_HH-MM-SS`:
four digits, dash, two digits, dash, two digits, underscore,
two digits, dash, two digits, dash, two digits. -/
def matchesDatetimeFormat (s : String) : Bool :=
  match s.data with
  | [y1, y2, y3, y4, c1, m1, m2, c2, d1, d2, c3, h1, h2, c4, n1, n2, c5, s1, s2] =>
    y1.isDigit && y2.isDigit && y3.isDigit && y4.isDigit &&
    m1.isDigit && m2.isDigit && d1.isDigit && d2.isDigit &&
    h1.isDigit && h2.isDigit && n1.isDigit && n2.isDigit &&
    s1.isDigit && s2.isDigit &&
    c1 = '-' && c2 = '-' && c3 = '_' && c4 = '-' && c5 = '-'
  | _ => false

/-- Exactly two decimal digits. -/
def digitsOnly2 (l : List Char) : Bool :=
  match l with
  | [a, b] => a.isDigit && b.isDigit
  | _ => false

/-- Exactly four decimal digits. -/
def digitsOnly4 (l : List Char) : Bool :=
  match l with
  | [a, b, c, d] => a.isDigit && b.isDigit && c.isDigit && d.isDigit
  | _ => false

/-! ## The module's global namespace

`save_image` names `UnidentifiedImageError` in an `except` clause. Python
resolves that name when the clause is reached, against the module's global
(and builtin) namespace. The names below are exactly those bound at module
level by `image_processing.py`: line 7-18 imports, the `from` imports of
lines 20-35, the module constants, and the module-level `def`/`class`
statements — plus the builtins the module uses. -/
def module_global_names : List String :=
  ["io", "logging", "re", "time", "Path", "requests", "Image", "ImageDraw",
   "ds", "cv", "dt_util", "vol",
   "ATTR_CONFIDENCE", "CONF_ENTITY_ID", "CONF_NAME", "CONF_SOURCE", "DOMAIN",
   "PLATFORM_SCHEMA", "ImageProcessingFaceEntity",
   "ATTR_ENTITY_ID", "ATTR_NAME", "CONF_IP_ADDRESS", "CONF_PORT",
   "split_entity_id",
   "_LOGGER", "CONF_API_KEY", "CONF_TIMEOUT", "CONF_DETECT_ONLY",
   "CONF_SAVE_FILE_FOLDER", "CONF_SAVE_TIMESTAMPTED_FILE",
   "DATETIME_FORMAT", "DEFAULT_API_KEY", "DEFAULT_TIMEOUT",
   "CLASSIFIER", "DATA_DEEPSTACK", "FILE_PATH", "SERVICE_TEACH_FACE",
   "SERVICE_TEACH_SCHEMA",
   "get_valid_filename", "parse_faces", "setup_platform", "FaceClassifyEntity",
   "len", "open", "round", "str", "bytearray", "format"]

/-! ## `save_image` -/

/-- Exceptions that can escape the modelled code. -/
inductive PyExc where
  | NameError (missing : String)
  | UnidentifiedImageError
deriving DecidableEq, Repr

/-- Observable side effects of the entity code, in order of occurrence. -/
inductive Effect where
  | logError
  | logWarning
  | logInfo
  | fireDetectEvent (faces : List Face) (total : ℕ)
  | writeFile (path : String)
deriving DecidableEq, Repr

/-- The file paths written within a list of effects. -/
def filesWritten (effs : List Effect) : List String :=
  effs.filterMap fun e =>
    match e with
    | .writeFile p => some p
    | _ => none

/-- Python f-string interpolation of `self._last_detection`
(an unset `None` renders as the string `"None"`). -/
def pyStrOpt : Option String → String
  | some s => s
  | none => "None"

/-- `FaceClassifyEntity.save_image(image, directory)`.

`decodes` abstracts whether `Image.open(io.BytesIO(bytearray(image)))`
succeeds on the given bytes (PIL is outside this repository). On failure
PIL raises `UnidentifiedImageError`; the `except UnidentifiedImageError:`
clause then resolves the name `UnidentifiedImageError` in the module
namespace — if the name is **unbound** the handler itself raises
`NameError` and nothing is caught; if it were bound the handler would log
a warning and return. On success the decoded image is written to
`directory / (get_valid_filename(self._name).lower() + "_latest.jpg")`,
and additionally — when `save_timestamped_file` is set — to
`directory / (self._name + "_" + self._last_detection + ".jpg")`,
followed by an info log. -/
def save_image (decodes : Bool) (name : String) (last_detection : Option String)
    (save_timestamped_file : Bool) (directory : String) :
    Except PyExc (List Effect) :=
  if decodes then
    let latest := directory ++ "/" ++ (pyLower (get_valid_filename name) ++ "_latest.jpg")
    if save_timestamped_file then
      let stamped := directory ++ "/" ++ (name ++ "_" ++ pyStrOpt last_detection ++ ".jpg")
      .ok [.writeFile latest, .writeFile stamped, .logInfo]
    else
      .ok [.writeFile latest]
  else
    if module_global_names.contains "UnidentifiedImageError" then
      .ok [.logWarning]
    else
      .error (.NameError "UnidentifiedImageError")

/-! ## The adapter entity and `process_image` -/

/-- The per-entity configuration fixed at construction time. -/
structure Config where
  detect_only : Bool
  save_file_folder : Option String
  save_timestamped_file : Bool
  name : String
deriving DecidableEq, Repr

/-- The mutable state of a `FaceClassifyEntity`:
`self._faces`, `self._matched`, `self.total_faces`, `self._last_detection`.
The matched tally's entries are name/metadata pairs; the metadata shape is
irrelevant to the claims, only the pairs and their count matter. -/
structure AdapterState where
  faces : List Prediction
  matched : List (String × ℚ)
  total_faces : Option ℕ
  last_detection : Option String
deriving DecidableEq, Repr

/-- The state `__init__` leaves behind: `_last_detection = None`,
`_faces = []`, `_matched = {}`, `total_faces = None`. -/
def initState : AdapterState :=
  { faces := [], matched := [], total_faces := none, last_detection := none }

/-- One frame-processing cycle's external inputs: the outcome of the
Deepstack call (`detect`/`recognise` raising `DeepstackException`, or the
`predictions` list it leaves on the client), whether PIL can decode the
frame bytes, and the wall-clock time `dt_util.now()`. -/
structure CycleInput where
  outcome : Except Unit (List Prediction)
  decodes : Bool
  now : DateTime
deriving Repr

/-- What one `process_image` call leaves behind: the entity state at exit,
the effects emitted, and the exception propagating to the caller, if any
(in Python the state mutations made before the raise persist). -/
structure CycleResult where
  state : AdapterState
  effects : List Effect
  raised : Option PyExc
deriving DecidableEq, Repr

/-- `FaceClassifyEntity.process_image(image)`.

Resets `_faces`, `_matched`, `total_faces`; calls the Deepstack client,
and on `DeepstackException` logs an error and returns. Otherwise copies
the client's predictions; when non-empty it stamps `_last_detection`,
sets `total_faces`, computes the tally via the external
`ds.get_recognised_faces` (supplied as `tally`), fires the
`image_processing.detect_face` event with `parse_faces`' output, and —
when a save folder is configured — calls `save_image`, whose exception
(if any) propagates. When the prediction list is empty it re-clears
`total_faces` and `_matched`. -/
def process_image (cfg : Config) (tally : List Prediction → List (String × ℚ))
    (st : AdapterState) (inp : CycleInput) : CycleResult :=
  let st0 : AdapterState := { st with faces := [], matched := [], total_faces := none }
  match inp.outcome with
  | .error _ => { state := st0, effects := [.logError], raised := none }
  | .ok preds =>
    let st1 := { st0 with faces := preds }
    if preds.length > 0 then
      let ts := strftimeFmt inp.now
      let st2 := { st1 with
        last_detection := some ts,
        total_faces := some preds.length,
        matched := tally preds }
      let fired := [Effect.fireDetectEvent (parse_faces preds) preds.length]
      match cfg.save_file_folder with
      | some dir =>
        match save_image inp.decodes cfg.name st2.last_detection
            cfg.save_timestamped_file dir with
        | .ok saveEffs => { state := st2, effects := fired ++ saveEffs, raised := none }
        | .error e => { state := st2, effects := fired, raised := some e }
      | none => { state := st2, effects := fired, raised := none }
    else
      { state := { st1 with total_faces := none, matched := [] },
        effects := [], raised := none }

/-- Run a sequence of frame cycles from a starting state, keeping the state
each cycle leaves behind (Home Assistant keeps calling the entity whether
or not an earlier update raised). -/
def runCycles (cfg : Config) (tally : List Prediction → List (String × ℚ))
    (st : AdapterState) (inps : List CycleInput) : AdapterState :=
  inps.foldl (fun s i => (process_image cfg tally s i).state) st

/-- The `device_state_attributes` dict, field by field: `detect_only` only
when detect-only is on; `matched_faces` and `total_matched_faces` only when
it is off; `last_target_detection` only when `self._last_detection` is
truthy (a non-`None`, non-empty string). -/
structure Attributes where
  detect_only : Option Bool
  matched_faces : Option (List (String × ℚ))
  total_matched_faces : Option ℕ
  last_target_detection : Option String
deriving DecidableEq, Repr

/-- `FaceClassifyEntity.device_state_attributes`. -/
def device_state_attributes (cfg : Config) (st : AdapterState) : Attributes :=
  { detect_only := if cfg.detect_only then some cfg.detect_only else none
    matched_faces := if cfg.detect_only then none else some st.matched
    total_matched_faces := if cfg.detect_only then none else some st.matched.length
    last_target_detection :=
      match st.last_detection with
      | some s => if s = "" then none else some s
      | none => none }

/-! ## `teach` -/

/-- Side effects of the `teach` operation. -/
inductive TeachEffect where
  | openFile (path : String)
  | registerFace (name : String) (path : String)
  | logInfo (name : String)
deriving DecidableEq, Repr

/-- `FaceClassifyEntity.teach(name, file_path)`: if
`hass.config.is_allowed_path(file_path)` (the host policy, supplied as a
predicate) denies the path, return immediately — no file open, no call to
the registration endpoint, no log. Otherwise open the file, call
`register_face`, and log. -/
def teach (is_allowed_path : String → Bool) (name : String) (file_path : String) :
    List TeachEffect :=
  if is_allowed_path file_path then
    [.openFile file_path, .registerFace name file_path, .logInfo name]
  else
    []

/-! ## The `deepstack_teach_face` service handler -/

/-- `service_handle(service)` from `setup_platform`, reduced to which
registered classifiers get `teach` called on them, in registration order.
`requested` is `service.data.get("entity_id")`: `none` when the key is
absent. Python's `if entity_ids:` treats an empty list like an absent key,
so filtering only happens for a non-empty requested list. -/
def service_handle (registered : List String) (requested : Option (List String)) :
    List String :=
  match requested with
  | none => registered
  | some ids =>
    if ids.isEmpty then registered
    else registered.filter (fun c => ids.contains c)

/-- The handler as the claim words it: teach exactly the registered
adapters whose entity id is in the requested list, or all of them when no
entity ids are specified. -/
def service_handle_per_spec (registered : List String)
    (requested : Option (List String)) : List String :=
  match requested with
  | none => registered
  | some ids => registered.filter (fun c => ids.contains c)

/-! ## Small shared sample values for closed instantiations -/

/-- A trivial stand-in for the external `ds.get_recognised_faces`. -/
def emptyTally : List Prediction → List (String × ℚ) := fun _ => []

/-- A sample per-camera configuration. -/
def sampleConfig : Config :=
  { detect_only := false, save_file_folder := some "/tmp/deepstack",
    save_timestamped_file := true, name := "deepstack_face local_file" }

/-- A sample wall-clock instant. -/
def sampleTime : DateTime :=
  { year := 2026, month := 10, day := 12, hour := 7, minute := 30, second := 5 }

/-- A sample recognised prediction. -/
def alicePred : Prediction :=
  { userid := some "alice", confidence := Rat.divInt 9 10 }

/-! # Supporting lemmas -/

theorem ratScale_eq_mul (k : ℤ) (x : ℚ) : ratScale k x = (k : ℚ) * x := by
  unfold ratScale
  rw [Rat.divInt_eq_div]
  push_cast
  rw [mul_div_assoc, Rat.num_div_den]

theorem parse_faces_takeWhile (preds : List Prediction) :
    parse_faces preds = parse_faces (preds.takeWhile (fun p => p.userid.isSome)) := by
  induction preds with
  | nil => rfl
  | cons p rest ih =>
    cases huid : p.userid with
    | none => simp [parse_faces, List.takeWhile, huid]
    | some uid =>
      by_cases hu : uid = "unknown" <;>
        simp [parse_faces, List.takeWhile, huid, hu, ih]

end DeepstackFace

namespace DeepstackFace

/-! # Claims -/

/-- C2: the claim states that any entry lacking `"userid"` empties the
result wherever it appears. It does not: `break` only truncates, so a list
whose first entry is a named face and whose second lacks `"userid"` still
yields that first face. -/
theorem c2_counterexample :
    parse_faces [alicePred, { userid := none, confidence := 0 }] =
      [{ name := "alice", confidence := (90 : ℚ) }] ∧
    parse_faces [alicePred, { userid := none, confidence := 0 }] ≠ [] := by
  constructor <;> decide

/-- C2 (amended): an entry lacking `"userid"` stops processing at that
point: when the **first** entry lacks it the result is empty, and in
general `parse_faces` depends only on the prefix of entries that carry a
`"userid"`. -/
theorem c2_amended_break_truncates :
    (∀ (c : ℚ) (rest : List Prediction),
      parse_faces ({ userid := none, confidence := c } :: rest) = []) ∧
    (∀ preds, parse_faces preds =
      parse_faces (preds.takeWhile (fun p => p.userid.isSome))) :=
  ⟨fun _ _ => rfl, parse_faces_takeWhile⟩

/-- C4: on a prediction list in which every entry carries a `"userid"`,
`parse_faces` keeps exactly the entries whose userid differs from the
literal `"unknown"`, in input order, and maps each to its face record;
on the empty list it returns the empty list. -/
theorem c4_filter_unknown (preds : List Prediction)
    (h : ∀ p ∈ preds, p.userid.isSome = true) :
    parse_faces preds =
      (preds.filter (fun p => p.userid != some "unknown")).map mkFace ∧
    parse_faces ([] : List Prediction) = [] := by
  refine ⟨?_, rfl⟩
  induction preds with
  | nil => rfl
  | cons p rest ih =>
    obtain ⟨uid, huid⟩ := Option.isSome_iff_exists.mp (h p (List.mem_cons_self p rest))
    have hrest := fun q hq => h q (List.mem_cons_of_mem p hq)
    by_cases hu : uid = "unknown" <;>
      simp [parse_faces, List.filter_cons, huid, hu, ih hrest]

/-- C4 witness: a concrete all-named list containing one `"unknown"`. -/
theorem c4_witness :
    parse_faces [{ userid := some "unknown", confidence := 1 }, alicePred] =
      ([{ userid := some "unknown", confidence := 1 }, alicePred].filter
        (fun p => p.userid != some "unknown")).map mkFace ∧
    parse_faces ([] : List Prediction) = [] :=
  c4_filter_unknown [{ userid := some "unknown", confidence := 1 }, alicePred]
    (by decide)

/-- C5: every face emitted by `parse_faces` takes its confidence from some
input entry, scaled to a 0–100 percentage and rounded to two decimal
places; and an input confidence of `0.8765` yields exactly `87.65`. -/
theorem c5_confidence_scaling :
    (∀ preds f, f ∈ parse_faces preds →
      ∃ p, p ∈ preds ∧ p.userid = some f.name ∧
        f.confidence = pyRound2 ((100 : ℚ) * p.confidence)) ∧
    pyRound2 ((100 : ℚ) * Rat.divInt 8765 10000) = Rat.divInt 8765 100 := by
  constructor
  · intro preds
    induction preds with
    | nil => intro f hf; simp [parse_faces] at hf
    | cons p rest ih =>
      intro f hf
      cases huid : p.userid with
      | none => simp [parse_faces, huid] at hf
      | some uid =>
        by_cases hu : uid = "unknown"
        · simp only [parse_faces, huid, hu, if_true] at hf
          obtain ⟨q, hq, h1, h2⟩ := ih f hf
          exact ⟨q, List.mem_cons_of_mem p hq, h1, h2⟩
        · simp only [parse_faces, huid, hu, if_false] at hf
          rcases List.mem_cons.mp hf with rfl | hf
          · refine ⟨p, List.mem_cons_self p rest, ?_, ?_⟩
            · simp [mkFace, huid]
            · simp [mkFace, ratScale_eq_mul]
          · obtain ⟨q, hq, h1, h2⟩ := ih f hf
            exact ⟨q, List.mem_cons_of_mem p hq, h1, h2⟩
  · rw [show ((100 : ℚ)) = (((100 : ℤ)) : ℚ) by norm_num, ← ratScale_eq_mul]
    decide

/-- C5 witness: the face parsed from a confidence of 0.8765 carries 87.65. -/
theorem c5_witness :
    ∃ p, p ∈ [({ userid := some "alice", confidence := Rat.divInt 8765 10000 } : Prediction)] ∧
      p.userid = some ((⟨"alice", Rat.divInt 8765 100⟩ : Face).name) ∧
      (⟨"alice", Rat.divInt 8765 100⟩ : Face).confidence =
        pyRound2 ((100 : ℚ) * p.confidence) :=
  c5_confidence_scaling.1
    [({ userid := some "alice", confidence := Rat.divInt 8765 10000 } : Prediction)]
    ⟨"alice", Rat.divInt 8765 100⟩ (by decide)

/-- C6: the claim describes the sanitizer as replace-spaces-then-filter,
but `get_valid_filename` first strips leading/trailing whitespace: on
`" a"` the code yields `"a"` while the claimed transformation yields
`"_a"` (the leading space would become a kept underscore). -/
theorem c6_counterexample :
    get_valid_filename " a" = "a" ∧ sanitize_per_spec " a" = "_a" ∧
    get_valid_filename " a" ≠ sanitize_per_spec " a" := by
  refine ⟨?_, ?_, ?_⟩ <;> decide

/-- C6 (amended): the sanitizer strips leading and trailing whitespace,
then replaces spaces with underscores, then removes every character that
is not a word character, hyphen, or dot; `"John Doe!"` yields
`"John_Doe"`, and every output character is a word character, hyphen, or
dot (underscores being word characters). -/
theorem c6_amended_sanitizer :
    (∀ s, get_valid_filename s = sanitize_per_spec (pyStrip s)) ∧
    get_valid_filename "John Doe!" = "John_Doe" ∧
    (∀ s, (get_valid_filename s).data.all keptChar = true) := by
  refine ⟨fun s => rfl, by decide, fun s => ?_⟩
  rw [List.all_eq_true]
  intro c hc
  exact List.of_mem_filter hc

/-- C7: when the host's allowed-path policy denies the file path, `teach`
returns immediately: no file open, no registration call, no log. -/
theorem c7_teach_disallowed (is_allowed_path : String → Bool)
    (name file_path : String) (h : is_allowed_path file_path = false) :
    teach is_allowed_path name file_path = [] := by
  simp [teach, h]

/-- C7 witness: a policy that denies everything. -/
theorem c7_witness : teach (fun _ => false) "bob" "/config/faces/bob.jpg" = [] :=
  c7_teach_disallowed (fun _ => false) "bob" "/config/faces/bob.jpg" rfl

/-- C10: the claim says an entity-id list that matches no adapter teaches
no adapter. An explicitly empty requested list matches no adapter, yet
Python's `if entity_ids:` treats it like an absent key, so every
registered adapter is taught. -/
theorem c10_counterexample :
    service_handle ["image_processing.cam"] (some []) = ["image_processing.cam"] ∧
    service_handle_per_spec ["image_processing.cam"] (some []) = [] := by
  constructor <;> decide

/-- C10 (amended): the adapters taught are exactly the registered ones
whose entity id is in the requested list when that list is non-empty —
kept in registration order — and all registered adapters when the
entity-id list is absent **or empty**; a non-empty list matching no
adapter teaches none and raises no error. -/
theorem c10_amended_dispatch (registered : List String)
    (requested : Option (List String)) :
    ((requested = none ∨ requested = some []) →
      service_handle registered requested = registered) ∧
    (∀ ids, requested = some ids → ids ≠ [] →
      ((∀ c, c ∈ service_handle registered requested ↔
          c ∈ registered ∧ c ∈ ids) ∧
        List.Sublist (service_handle registered requested) registered ∧
        ((∀ r ∈ registered, r ∉ ids) →
          service_handle registered requested = []))) := by
  refine ⟨?_, ?_⟩
  · rintro (rfl | rfl) <;> simp [service_handle]
  · rintro ids rfl hne
    have hne' : ¬ids.isEmpty := by
      cases ids with
      | nil => exact absurd rfl hne
      | cons a l => simp [List.isEmpty]
    refine ⟨?_, ?_, ?_⟩
    · intro c
      simp [service_handle, hne', List.mem_filter]
    · simp only [service_handle, if_neg hne']
      exact List.filter_sublist registered
    · intro hnone
      simp only [service_handle, if_neg hne']
      rw [List.filter_eq_nil_iff]
      intro a ha
      simpa using hnone a ha

/-- C10 witness: a non-empty request matching no registered adapter. -/
theorem c10_witness :
    service_handle ["image_processing.cam"] (some ["image_processing.other"]) = [] :=
  ((c10_amended_dispatch ["image_processing.cam"]
      (some ["image_processing.other"])).2
    ["image_processing.other"] rfl (by decide)).2.2 (by decide)

/-! # Supporting lemmas: zero-padded digits and the timestamp format -/

theorem digitChar_isDigit : ∀ m < 10, (Nat.digitChar m).isDigit = true := by decide

theorem pad2_digits (n : ℕ) (h : n < 100) : digitsOnly2 (pad2 n).data = true := by
  have h1 := digitChar_isDigit (n / 10 % 10) (Nat.mod_lt _ (by norm_num))
  have h2 := digitChar_isDigit (n % 10) (Nat.mod_lt _ (by norm_num))
  simp [pad2, h, digitsOnly2, h1, h2]

theorem pad4_digits (n : ℕ) (h : n < 10000) : digitsOnly4 (pad4 n).data = true := by
  have h1 := digitChar_isDigit (n / 1000 % 10) (Nat.mod_lt _ (by norm_num))
  have h2 := digitChar_isDigit (n / 100 % 10) (Nat.mod_lt _ (by norm_num))
  have h3 := digitChar_isDigit (n / 10 % 10) (Nat.mod_lt _ (by norm_num))
  have h4 := digitChar_isDigit (n % 10) (Nat.mod_lt _ (by norm_num))
  simp [pad4, h, digitsOnly4, h1, h2, h3, h4]

theorem digitsOnly2_spec (l : List Char) (h : digitsOnly2 l = true) :
    ∃ a b, l = [a, b] ∧ a.isDigit = true ∧ b.isDigit = true := by
  match l with
  | [] => exact Bool.noConfusion h
  | [a] => exact Bool.noConfusion h
  | [a, b] =>
    rw [show digitsOnly2 [a, b] = (a.isDigit && b.isDigit) from rfl,
      Bool.and_eq_true] at h
    exact ⟨a, b, rfl, h.1, h.2⟩
  | a :: b :: c :: t => exact Bool.noConfusion h

theorem digitsOnly4_spec (l : List Char) (h : digitsOnly4 l = true) :
    ∃ a b c d, l = [a, b, c, d] ∧ a.isDigit = true ∧ b.isDigit = true ∧
      c.isDigit = true ∧ d.isDigit = true := by
  match l with
  | [] | [_] | [_, _] | [_, _, _] => exact Bool.noConfusion h
  | [a, b, c, d] =>
    rw [show digitsOnly4 [a, b, c, d] =
        (a.isDigit && b.isDigit && c.isDigit && d.isDigit) from rfl,
      Bool.and_eq_true, Bool.and_eq_true, Bool.and_eq_true] at h
    exact ⟨a, b, c, d, rfl, h.1.1.1, h.1.1.2, h.1.2, h.2⟩
  | _ :: _ :: _ :: _ :: _ :: _ => exact Bool.noConfusion h

theorem strftimeFmt_matches (t : DateTime) (hy : t.year < 10000)
    (hmo : t.month < 100) (hd : t.day < 100) (hh : t.hour < 100)
    (hmi : t.minute < 100) (hs : t.second < 100) :
    matchesDatetimeFormat (strftimeFmt t) = true := by
  obtain ⟨y1, y2, y3, y4, hYd, hy1, hy2, hy3, hy4⟩ :=
    digitsOnly4_spec _ (pad4_digits t.year hy)
  obtain ⟨m1, m2, hMd, hm1, hm2⟩ := digitsOnly2_spec _ (pad2_digits t.month hmo)
  obtain ⟨d1, d2, hDd, hd1, hd2⟩ := digitsOnly2_spec _ (pad2_digits t.day hd)
  obtain ⟨h1, h2, hHd, hh1, hh2⟩ := digitsOnly2_spec _ (pad2_digits t.hour hh)
  obtain ⟨n1, n2, hNd, hn1, hn2⟩ := digitsOnly2_spec _ (pad2_digits t.minute hmi)
  obtain ⟨s1, s2, hSd, hs1, hs2⟩ := digitsOnly2_spec _ (pad2_digits t.second hs)
  have hdata : (strftimeFmt t).data =
      [y1, y2, y3, y4, '-', m1, m2, '-', d1, d2, '_',
        h1, h2, '-', n1, n2, '-', s1, s2] := by
    simp [strftimeFmt, String.data_append, hYd, hMd, hDd, hHd, hNd, hSd,
      show ("-" : String).data = ['-'] from rfl,
      show ("_" : String).data = ['_'] from rfl]
  unfold matchesDatetimeFormat
  rw [hdata]
  simp [hy1, hy2, hy3, hy4, hm1, hm2, hd1, hd2, hh1, hh2, hn1, hn2, hs1, hs2]

theorem strftimeFmt_ne_empty (t : DateTime) : strftimeFmt t ≠ "" := by
  intro h
  have hl := congrArg String.length h
  simp only [strftimeFmt, String.length_append,
    show ("-" : String).length = 1 from rfl,
    show ("_" : String).length = 1 from rfl,
    show ("" : String).length = 0 from rfl] at hl
  omega

/-! # Supporting lemmas: how `process_image` drives `_last_detection` -/

theorem process_image_last_detection (cfg : Config)
    (tally : List Prediction → List (String × ℚ)) (st : AdapterState)
    (inp : CycleInput) :
    (process_image cfg tally st inp).state.last_detection =
      match inp.outcome with
      | .error _ => st.last_detection
      | .ok preds =>
        if 0 < preds.length then some (strftimeFmt inp.now)
        else st.last_detection := by
  obtain ⟨o, d, n⟩ := inp
  cases o with
  | error e => simp [process_image]
  | ok preds =>
    by_cases hp : 0 < preds.length
    · cases hf : cfg.save_file_folder with
      | none => simp [process_image, hp, hf]
      | some dir =>
        cases hsv : save_image d cfg.name (some (strftimeFmt n))
            cfg.save_timestamped_file dir with
        | ok effs => simp [process_image, hp, hf, hsv]
        | error e => simp [process_image, hp, hf, hsv]
    · simp [process_image, hp]

theorem runCycles_cons (cfg : Config)
    (tally : List Prediction → List (String × ℚ)) (st : AdapterState)
    (i : CycleInput) (inps : List CycleInput) :
    runCycles cfg tally st (i :: inps) =
      runCycles cfg tally (process_image cfg tally st i).state inps := rfl

theorem runCycles_no_detect (cfg : Config)
    (tally : List Prediction → List (String × ℚ)) :
    ∀ (inps : List CycleInput) (st : AdapterState),
      (∀ i ∈ inps, ∀ preds, i.outcome = .ok preds → preds = []) →
      (runCycles cfg tally st inps).last_detection = st.last_detection := by
  intro inps
  induction inps with
  | nil => intro st _; rfl
  | cons i rest ih =>
    intro st h
    rw [runCycles_cons, ih _ (fun j hj => h j (List.mem_cons_of_mem i hj))]
    rw [process_image_last_detection]
    cases ho : i.outcome with
    | error e => rfl
    | ok preds =>
      have hnil := h i (List.mem_cons_self i rest) preds ho
      subst hnil
      simp

theorem process_image_ld_mono (cfg : Config)
    (tally : List Prediction → List (String × ℚ)) (st : AdapterState)
    (inp : CycleInput) (h : st.last_detection ≠ none) :
    (process_image cfg tally st inp).state.last_detection ≠ none := by
  rw [process_image_last_detection]
  cases ho : inp.outcome with
  | error e => exact h
  | ok preds =>
    by_cases hp : 0 < preds.length
    · simp [hp]
    · simpa [hp] using h

theorem runCycles_ld_mono (cfg : Config)
    (tally : List Prediction → List (String × ℚ)) :
    ∀ (inps : List CycleInput) (st : AdapterState),
      st.last_detection ≠ none →
      (runCycles cfg tally st inps).last_detection ≠ none := by
  intro inps
  induction inps with
  | nil => exact fun st h => h
  | cons i rest ih =>
    intro st h
    rw [runCycles_cons]
    exact ih _ (process_image_ld_mono cfg tally st i h)

theorem runCycles_detect (cfg : Config)
    (tally : List Prediction → List (String × ℚ)) :
    ∀ (inps : List CycleInput) (st : AdapterState),
      (∃ i ∈ inps, ∃ preds, i.outcome = .ok preds ∧ preds ≠ []) →
      (runCycles cfg tally st inps).last_detection ≠ none := by
  intro inps
  induction inps with
  | nil => rintro st ⟨i, hi, -⟩; cases hi
  | cons j rest ih =>
    rintro st ⟨i, hi, preds, ho, hne⟩
    rcases List.mem_cons.mp hi with rfl | hi
    · rw [runCycles_cons]
      apply runCycles_ld_mono
      rw [process_image_last_detection, ho]
      have hp : 0 < preds.length := List.length_pos.mpr hne
      simp [hp]
    · rw [runCycles_cons]
      exact ih _ ⟨i, hi, preds, ho, hne⟩

theorem runCycles_ld_shape (cfg : Config)
    (tally : List Prediction → List (String × ℚ)) :
    ∀ (inps : List CycleInput) (st : AdapterState),
      (st.last_detection = none ∨
        ∃ t, st.last_detection = some (strftimeFmt t)) →
      ((runCycles cfg tally st inps).last_detection = none ∨
        ∃ t, (runCycles cfg tally st inps).last_detection =
          some (strftimeFmt t)) := by
  intro inps
  induction inps with
  | nil => exact fun st h => h
  | cons i rest ih =>
    intro st h
    rw [runCycles_cons]
    apply ih
    rw [process_image_last_detection]
    cases ho : i.outcome with
    | error e => exact h
    | ok preds =>
      by_cases hp : 0 < preds.length
      · exact Or.inr ⟨i.now, by simp [hp]⟩
      · simpa [hp] using h

/-! # Remaining claims -/

/-- C1: the claim says undecodable image bytes make `save_image` log a
warning and return, non-fatally. The module imports only `Image` and
`ImageDraw` from PIL and never binds `UnidentifiedImageError`, so when the
decode fails the `except` clause itself raises `NameError`, which
`process_image` does not catch: no warning is logged, no file is written,
and the failure propagates to the caller. The handler's existence shows
the claim matches the intent; the missing import is a code bug. -/
theorem c1_unidentified_image_name_error :
    module_global_names.contains "UnidentifiedImageError" = false ∧
    save_image false "deepstack_face local_file" (some (strftimeFmt sampleTime))
        false "/tmp/deepstack" = .error (.NameError "UnidentifiedImageError") ∧
    (process_image sampleConfig emptyTally initState
        { outcome := .ok [alicePred], decodes := false, now := sampleTime }).raised =
      some (.NameError "UnidentifiedImageError") := by
  refine ⟨by decide, by rfl, by decide⟩

/-- C3: a `DeepstackException` from the service call is caught: exactly an
error log is emitted, nothing propagates, and the cycle ends in the
zero-faces state — `total_faces` is `None`, the matched tally is empty,
and the faces list is empty. -/
theorem c3_service_failure_zero_faces (cfg : Config)
    (tally : List Prediction → List (String × ℚ)) (st : AdapterState)
    (inp : CycleInput) (h : inp.outcome = .error ()) :
    (process_image cfg tally st inp).raised = none ∧
    (process_image cfg tally st inp).effects = [.logError] ∧
    (process_image cfg tally st inp).state.total_faces = none ∧
    (process_image cfg tally st inp).state.matched = [] ∧
    (process_image cfg tally st inp).state.faces = [] := by
  obtain ⟨o, d, n⟩ := inp
  cases h
  simp [process_image]

/-- C3 witness: a concrete failing cycle. -/
theorem c3_witness :
    (process_image sampleConfig emptyTally initState
        { outcome := .error (), decodes := true, now := sampleTime }).raised = none ∧
    (process_image sampleConfig emptyTally initState
        { outcome := .error (), decodes := true, now := sampleTime }).effects =
      [.logError] ∧
    (process_image sampleConfig emptyTally initState
        { outcome := .error (), decodes := true, now := sampleTime }).state.total_faces =
      none ∧
    (process_image sampleConfig emptyTally initState
        { outcome := .error (), decodes := true, now := sampleTime }).state.matched = [] ∧
    (process_image sampleConfig emptyTally initState
        { outcome := .error (), decodes := true, now := sampleTime }).state.faces = [] :=
  c3_service_failure_zero_faces sampleConfig emptyTally initState
    { outcome := .error (), decodes := true, now := sampleTime } rfl

/-- C8: on a successful save the files written are exactly one latest file
`<sanitized-name-lowercased>_latest.jpg`, plus — if and only if
timestamped saving is enabled — one `<raw name>_<timestamp>.jpg` whose
timestamp is the last-detection string in `YYYY-MM-DD_HH-MM-SS` shape. -/
theorem c8_save_image_files (name dir : String) (ts : Bool) (t : DateTime)
    (hy : t.year < 10000) (hmo : t.month < 100) (hd : t.day < 100)
    (hh : t.hour < 100) (hmi : t.minute < 100) (hs : t.second < 100) :
    ∃ effs, save_image true name (some (strftimeFmt t)) ts dir = .ok effs ∧
      filesWritten effs =
        [dir ++ "/" ++ (pyLower (get_valid_filename name) ++ "_latest.jpg")] ++
          (if ts then [dir ++ "/" ++ (name ++ "_" ++ strftimeFmt t ++ ".jpg")]
            else []) ∧
      matchesDatetimeFormat (strftimeFmt t) = true := by
  cases ts with
  | false =>
    exact ⟨_, rfl, by simp [filesWritten],
      strftimeFmt_matches t hy hmo hd hh hmi hs⟩
  | true =>
    exact ⟨_, rfl, by simp [filesWritten, pyStrOpt],
      strftimeFmt_matches t hy hmo hd hh hmi hs⟩

/-- C8 witness: a concrete timestamped save. -/
theorem c8_witness :
    ∃ effs, save_image true "deepstack_face local_file"
        (some (strftimeFmt sampleTime)) true "/tmp/deepstack" = .ok effs ∧
      filesWritten effs =
        ["/tmp/deepstack" ++ "/" ++
            (pyLower (get_valid_filename "deepstack_face local_file") ++
              "_latest.jpg")] ++
          (if true then
            ["/tmp/deepstack" ++ "/" ++
              ("deepstack_face local_file" ++ "_" ++ strftimeFmt sampleTime ++
                ".jpg")]
            else []) ∧
      matchesDatetimeFormat (strftimeFmt sampleTime) = true :=
  c8_save_image_files "deepstack_face local_file" "/tmp/deepstack" true sampleTime
    (by decide) (by decide) (by decide) (by decide) (by decide) (by decide)

/-- C9: starting from a fresh adapter, the `last_target_detection`
attribute is exposed iff some processed cycle succeeded with at least one
face; and any already-set `_last_detection` survives every further
`process_image` call, failed and zero-face cycles included. -/
theorem c9_last_detection_exposed (cfg : Config)
    (tally : List Prediction → List (String × ℚ)) (inps : List CycleInput) :
    ((device_state_attributes cfg
        (runCycles cfg tally initState inps)).last_target_detection ≠ none ↔
      ∃ i ∈ inps, ∃ preds, i.outcome = .ok preds ∧ preds ≠ []) ∧
    (∀ (st : AdapterState) (inp : CycleInput), st.last_detection ≠ none →
      (process_image cfg tally st inp).state.last_detection ≠ none) := by
  constructor
  · constructor
    · intro hattr
      by_contra hno
      push_neg at hno
      have hld := runCycles_no_detect cfg tally inps initState hno
      refine hattr ?_
      simp only [device_state_attributes]
      rw [hld]
      rfl
    · intro hdet
      have hld := runCycles_detect cfg tally inps initState hdet
      rcases runCycles_ld_shape cfg tally inps initState (Or.inl rfl) with
        hnone | ⟨t, ht⟩
      · exact absurd hnone hld
      · simp [device_state_attributes, ht, strftimeFmt_ne_empty t]
  · exact fun st inp h => process_image_ld_mono cfg tally st inp h

/-- C9 witness: one successful cycle with a face exposes the attribute. -/
theorem c9_witness :
    (device_state_attributes sampleConfig
        (runCycles sampleConfig emptyTally initState
          [{ outcome := .ok [alicePred], decodes := true,
             now := sampleTime }])).last_target_detection ≠ none :=
  (c9_last_detection_exposed sampleConfig emptyTally
      [{ outcome := .ok [alicePred], decodes := true, now := sampleTime }]).1.mpr
    ⟨{ outcome := .ok [alicePred], decodes := true, now := sampleTime },
      List.mem_cons_self _ _, [alicePred], rfl, by decide⟩

end DeepstackFace
